import Mathlib

/-!
Verification development for the android-wifi-mcp device command bridge.

The TypeScript source is shallowly embedded: every parser becomes a pure,
total Lean function over `List Char` (mirroring JavaScript string
primitives: `split`, `trim`, `includes`, whitespace tokenization and the
concrete regular expressions used by the source, including their
backtracking behaviour), and every effectful operation becomes a pure
function of the responses of the environment (the `AdbResult` values the shell
would return, the poll-time writes of the on-device agent), returning both
its value and the ordered trace of shell commands it issued.
-/

/-! ## JavaScript string primitives over `List Char` -/

/-- The whitespace characters recognised by the embedding of JavaScript
`trim` and `\s` (the ASCII subset, which is all this protocol produces). -/
def isJsWs (c : Char) : Bool :=
  (c == ' ') || (c == '\t') || (c == '\n') || (c == '\r') || (c == '\x0b') || (c == '\x0c')

/-- Embedding of `String.prototype.trim`. -/
def trimL (s : List Char) : List Char :=
  ((s.dropWhile isJsWs).reverse.dropWhile isJsWs).reverse

/-- Embedding of `str.split(c)`: always returns at least one (possibly
empty) piece. -/
def splitOnCharL (sep : Char) : List Char → List (List Char)
  | [] => [[]]
  | a :: rest =>
    match splitOnCharL sep rest with
    | r :: rs => if a == sep then [] :: r :: rs else (a :: r) :: rs
    | [] => [[]]

/-- Does `needle` occur at the very start of `hay`? -/
def startsWithL : List Char → List Char → Bool
  | [], _ => true
  | _ :: _, [] => false
  | a :: as, b :: bs => (a == b) && startsWithL as bs

/-- Embedding of `hay.includes(needle)`: contiguous substring containment. -/
def strIncludesL : List Char → List Char → Bool
  | [], needle => startsWithL needle []
  | hay@(_ :: rest), needle => startsWithL needle hay || strIncludesL rest needle

/-- Embedding of `String.prototype.toLowerCase` (ASCII range). -/
def lowerL (s : List Char) : List Char := s.map Char.toLower

/-- Embedding of JavaScript `a || b` on strings: the empty string is falsy. -/
def jsOr (a b : String) : String := if a = "" then b else a

/-- Tokenization used for `trim().split(/\s+/)`: maximal runs of
non-whitespace characters, in order. -/
def wsTokensAux : List Char → List Char → List (List Char)
  | [], acc => if acc = [] then [] else [acc.reverse]
  | c :: rest, acc =>
    if isJsWs c then
      (if acc = [] then wsTokensAux rest [] else acc.reverse :: wsTokensAux rest [])
    else wsTokensAux rest (c :: acc)

/-- Whitespace tokens of a string (`trim().split(/\s+/)` with no empty
tokens, which is what the source observes after trimming). -/
def wsTokens (s : List Char) : List (List Char) := wsTokensAux s []

/-- Embedding of `Array.prototype.join(sep)`. -/
def joinWith (sep : List Char) : List (List Char) → List Char
  | [] => []
  | [x] => x
  | x :: y :: rest => x ++ sep ++ joinWith sep (y :: rest)

/-- The single-quote character, used by the quoted-string regexes. -/
def squote : Char := Char.ofNat 39

/-- Case-insensitive literal match: if (the lowercase) `pat` matches the
front of `s` case-insensitively, return the remainder. -/
def stripCI : List Char → List Char → Option (List Char)
  | [], s => some s
  | _, [] => none
  | a :: as, b :: bs => if a.toLower == b.toLower then stripCI as bs else none

/-- Leftmost-match scan: try the pattern fragment at every suffix, as a
JavaScript regex engine advances its start position. -/
def scanFirst (f : List Char → Option (List Char)) : List Char → Option (List Char)
  | [] => none
  | s@(_ :: rest) =>
    match f s with
    | some g => some g
    | none => scanFirst f rest

/-! ## Character classes of the regexes in the source -/

def isHexDigit (c : Char) : Bool :=
  c.isDigit || (('a' ≤ c) && (c ≤ 'f')) || (('A' ≤ c) && (c ≤ 'F'))

/-- Class `[0-9a-f:]` under the `i` flag. -/
def isHexColon (c : Char) : Bool := isHexDigit c || (c == ':')

/-- Class `[0-9.]`. -/
def isIpChar (c : Char) : Bool := c.isDigit || (c == '.')

/-- The group class of the status-dump ssid regex: every character but
double quote, single quote, comma and newline. -/
def statusSsidClass (c : Char) : Bool :=
  !((c == '"') || (c == squote) || (c == ',') || (c == '\n'))

/-- The group class of the saved-network ssid regex: every character but
double quote, single quote and newline (commas allowed). -/
def savedSsidClass (c : Char) : Bool :=
  !((c == '"') || (c == squote) || (c == '\n'))

/-! ## Backtracking fragments shared by the regexes

star-whitespace, an optional quote, then a nonempty class group: the
engine consumes a maximal whitespace run, tries the optional quote
(present first), then needs one or more class characters; on failure it
gives whitespace back one character at a time. -/

/-- Maximal class run, required nonempty. -/
def classRun1 (p : Char → Bool) (s : List Char) : Option (List Char) :=
  let g := s.takeWhile p
  if g = [] then none else some g

/-- An optional quote then a nonempty class group at this exact position,
quote-consuming branch first. -/
def tryQuoteGroup (p : Char → Bool) (s : List Char) : Option (List Char) :=
  let withQ :=
    match s with
    | c :: rest => if (c == '"') || (c == squote) then classRun1 p rest else none
    | [] => none
  match withQ with
  | some g => some g
  | none => classRun1 p s

/-- Backtracking over how much of the whitespace run `\s*` consumes:
`j` characters first, then fewer. -/
def wsBacktrack (p : Char → Bool) : Nat → List Char → Option (List Char)
  | 0, s => tryQuoteGroup p s
  | j + 1, s =>
    match tryQuoteGroup p (s.drop (j + 1)) with
    | some g => some g
    | none => wsBacktrack p j s

/-- Star-whitespace, optional quote, nonempty class group, with full
backtracking. -/
def wsThenGroup (p : Char → Bool) (s : List Char) : Option (List Char) :=
  wsBacktrack p (s.takeWhile isJsWs).length s

/-- `\s* (p+)` where the class contains no whitespace character, so the
backtracking collapses to skipping the maximal whitespace run. -/
def wsClassRun (p : Char → Bool) (s : List Char) : Option (List Char) :=
  classRun1 p (s.dropWhile isJsWs)

/-! ## Command executor (`AdbClient.exec` / `AdbClient.shell`) -/

/-- The normalized result every invocation resolves to (src/types.ts). -/
structure AdbResult where
  success : Bool
  stdout : String
  stderr : String
  exitCode : Nat
deriving DecidableEq

/-- What the promisified `child_process.exec` call did: resolved with
output, or rejected with an error object carrying optional captured
output, exit code and message. -/
inductive ExecOutcome
  | ok (stdout stderr : String)
  | failed (stdout stderr : Option String) (code : Option Nat) (message : Option String)

/-- `trim` on `String`. -/
def trimStr (s : String) : String := String.mk (trimL s.toList)

/-- Embedding of `AdbClient.exec`: the `try`/`catch` around `execAsync`.
A failed command is mapped to a plain result — the function is total, so
the call never raises. `err.code || 1` and the `||` chains use JavaScript
falsiness (0 and the empty string are falsy). -/
def AdbClient.exec : ExecOutcome → AdbResult
  | .ok out err => ⟨true, trimStr out, trimStr err, 0⟩
  | .failed out err code msg =>
    ⟨false,
      (out.map trimStr).getD "",
      jsOr ((err.map trimStr).getD "") (jsOr (msg.getD "") "Unknown error"),
      match code with
      | some n => if n = 0 then 1 else n
      | none => 1⟩

/-- Embedding of `AdbClient.shell`: wraps the remote-shell invocation form
around `exec`; the result mapping is the one of exec. -/
def AdbClient.shell (_command : String) (o : ExecOutcome) : AdbResult :=
  AdbClient.exec o

/-- Modelled from the spec: the shape of the promisified child-process
rejection when the per-call timeout elapses (runtime behaviour, not in
src/): the process was killed, no stderr was captured, and the error
message carries a timeout marker. -/
def timeoutOutcome (partStdout : Option String) : ExecOutcome :=
  ExecOutcome.failed partStdout none none (some "the command timed out")

/-! ## Scan-result parser (`WifiCommands.parseScanResults`) -/

/-- One observed access point (src/types.ts `ScanResult`; the optional raw
capability string is never set by the parser). -/
structure ScanResult where
  ssid : String
  bssid : String
  frequency : Nat
  rssi : Int
  security : String
deriving DecidableEq

/-- The strict 6-group colon-hex pattern `^([0-9a-f]{2}:){2}...$/i`:
`n + 1` groups of two hex digits, colon-separated. -/
def macChunks : Nat → List Char → Bool
  | 0, [a, b] => isHexDigit a && isHexDigit b
  | n + 1, a :: b :: c :: rest => isHexDigit a && isHexDigit b && (c == ':') && macChunks n rest
  | _, _ => false

/-- `^([0-9a-f]{2}:){5}[0-9a-f]{2}$/i`. -/
def isMacToken (s : List Char) : Bool := macChunks 5 s

/-- `^\d{4,5}$`. -/
def isFreqToken (s : List Char) : Bool :=
  (decide (s.length = 4) || decide (s.length = 5)) && s.all Char.isDigit

/-- `^-?\d{1,3}$`. -/
def isRssiToken (s : List Char) : Bool :=
  match s with
  | '-' :: rest => (decide (1 ≤ rest.length) && decide (rest.length ≤ 3)) && rest.all Char.isDigit
  | _ => (decide (1 ≤ s.length) && decide (s.length ≤ 3)) && s.all Char.isDigit

/-- `parseInt(s, 10)` on an all-digit token. -/
def digitsToNat (s : List Char) : Nat :=
  s.foldl (fun a c => a * 10 + (c.toNat - 48)) 0

/-- `parseInt(s, 10)` on `-?\d+`. -/
def parseSignedInt (s : List Char) : Int :=
  match s with
  | '-' :: rest => -(digitsToNat rest : Int)
  | _ => (digitsToNat s : Int)

/-- The cascading `includes` conditionals deriving the security label from
the bracket suffix; the label stays `Open` when the suffix is empty. -/
def securityFromFlags (flags : List Char) : String :=
  if flags = [] then "Open"
  else if strIncludesL flags ("SAE".toList) then "SAE"
  else if strIncludesL flags ("WPA3".toList) then "WPA3"
  else if strIncludesL flags ("WPA2".toList) then "WPA2"
  else if strIncludesL flags ("WPA".toList) then "WPA"
  else if strIncludesL flags ("WEP".toList) then "WEP"
  else if strIncludesL flags ("OWE".toList) then "OWE"
  else "Open"

/-- The explicit ordered (marker, label) table of the priority ordering
given by the spec, SAE > WPA3 > WPA2 > WPA > WEP > OWE > Open, evaluated
top to bottom (the spec-side reference definition compared against the
conditionals of the source). -/
def securityPriorityTable : List (String × String) :=
  [("SAE", "SAE"), ("WPA3", "WPA3"), ("WPA2", "WPA2"),
   ("WPA", "WPA"), ("WEP", "WEP"), ("OWE", "OWE")]

/-- First-match evaluation of the priority table, defaulting to `Open`. -/
def securityBySpecPriority (flags : List Char) : String :=
  ((securityPriorityTable.find? fun p => strIncludesL flags p.1.toList).map Prod.snd).getD "Open"

/-- One iteration of the scan parsing loop: trim, skip blank lines, split
off the bracket suffix, whitespace-tokenize, require a MAC first token;
frequency and rssi keep their initial 0 when their patterns fail; tokens
from index 4 on form the ssid, empty normalized to the hidden sentinel. -/
def parseScanLine (rawLine : List Char) : Option ScanResult :=
  let line := trimL rawLine
  if line = [] then none
  else
    let mainPart := line.takeWhile (fun c => !(c == '['))
    let flagsPart := line.dropWhile (fun c => !(c == '['))
    let parts := wsTokens (trimL mainPart)
    match parts with
    | p0 :: p1 :: p2 :: _ =>
      if isMacToken p0 then
        let frequency := if isFreqToken p1 then digitsToNat p1 else 0
        let rssi := if isRssiToken p2 then parseSignedInt p2 else 0
        let ssid := if 4 < parts.length then trimL (joinWith [' '] (parts.drop 4)) else []
        some { ssid := String.mk (if ssid = [] then "<hidden>".toList else ssid)
             , bssid := String.mk p0
             , frequency := frequency
             , rssi := rssi
             , security := securityFromFlags flagsPart }
      else none
    | _ => none

/-- Embedding of `WifiCommands.parseScanResults`: split into lines, skip a
header line containing `BSSID`, parse each remaining line independently. -/
def parseScanResults (output : String) : List ScanResult :=
  let lines := splitOnCharL '\n' output.toList
  let start := if strIncludesL (lines.headD []) ("BSSID".toList) then 1 else 0
  (lines.drop start).filterMap parseScanLine

/-- The whitespace tokens of the bracket-free part of a (trimmed) scan
line — token 0 is tested against the MAC pattern, token 1 is the
frequency candidate, token 2 the signal candidate. -/
def scanTokens (rawLine : List Char) : List (List Char) :=
  wsTokens (trimL ((trimL rawLine).takeWhile (fun c => !(c == '['))))

/-! ## Saved-network parser (`WifiCommands.parseSavedNetworks`) -/

/-- A persisted credential entry (src/types.ts `SavedNetwork`). -/
structure SavedNetwork where
  networkId : Nat
  ssid : String
deriving DecidableEq

/-- `\s*` then `\d+` where backtracking collapses (digits are not
whitespace), required nonempty. -/
def digitsAfterWs (s : List Char) : Option (List Char) :=
  classRun1 Char.isDigit (s.dropWhile isJsWs)

/-- `ID:?\s*(\d+)` at this position (case-insensitive), with the optional
colon tried consumed first. -/
def idCore (s : List Char) : Option (List Char) :=
  match stripCI ("id".toList) s with
  | some r =>
    let afterColon :=
      match r with
      | ':' :: r2 => digitsAfterWs r2
      | _ => none
    match afterColon with
    | some g => some g
    | none => digitsAfterWs r
  | none => none

/-- `(?:Network\s+)?ID:?\s*(\d+)` at this position: the optional
`Network\s+` prefix is tried first, then skipped. -/
def savedIdAt (s : List Char) : Option (List Char) :=
  let withNet :=
    match stripCI ("network".toList) s with
    | some r =>
      let w := r.takeWhile isJsWs
      if w = [] then none else idCore (r.drop w.length)
    | none => none
  match withNet with
  | some g => some g
  | none => idCore s

/-- The saved-network ssid pattern (literal SSID, optional colon, then
the quoted-group fragment) at this position; when the consumed colon
leaves no viable group the engine retries with the colon inside the group
(the colon is in the class). -/
def savedSsidAt (s : List Char) : Option (List Char) :=
  match stripCI ("ssid".toList) s with
  | some r =>
    let afterColon :=
      match r with
      | ':' :: r2 => wsThenGroup savedSsidClass r2
      | _ => none
    match afterColon with
    | some g => some g
    | none => wsThenGroup savedSsidClass r
  | none => none

/-- One iteration of the saved-network loop: a record is emitted exactly
when the id pattern matches somewhere in the trimmed line; the ssid falls
back to the `Unknown` sentinel when its own pattern finds nothing. -/
def parseSavedLine (rawLine : List Char) : Option SavedNetwork :=
  let t := trimL rawLine
  if t = [] then none
  else
    match scanFirst savedIdAt t with
    | some idG =>
      some { networkId := digitsToNat idG
           , ssid :=
               match scanFirst savedSsidAt t with
               | some g => String.mk (trimL g)
               | none => "Unknown" }
    | none => none

/-- Embedding of `WifiCommands.parseSavedNetworks`. -/
def parseSavedNetworks (output : String) : List SavedNetwork :=
  (splitOnCharL '\n' output.toList).filterMap parseSavedLine

/-! ## Connection-status parser (`WifiCommands.getStatus`) -/

/-- Point-in-time WiFi state (src/types.ts `WifiStatus`; the fields the
parser can set). -/
structure WifiStatus where
  enabled : Bool
  connected : Bool
  ssid : Option String
  bssid : Option String
  ipAddress : Option String
  linkSpeed : Option Nat
  rssi : Option Int
  frequency : Option Nat
deriving DecidableEq

/-- The status-dump ssid regex (literal SSID colon, star-whitespace,
optional quote, then the nonempty status class group) over the whole
dump, leftmost match, returning the raw captured group. -/
def findStatusSsid (d : List Char) : Option (List Char) :=
  scanFirst
    (fun t =>
      match stripCI ("ssid:".toList) t with
      | some r => wsThenGroup statusSsidClass r
      | none => none) d

/-- `\s*` then exactly 17 characters of `[0-9a-f:]` (the class excludes
whitespace, so the star collapses to the maximal run). -/
def bssidGroup (s : List Char) : Option (List Char) :=
  let t := s.dropWhile isJsWs
  let g := t.take 17
  if decide (g.length = 17) && g.all isHexColon then some g else none

/-- `/BSSID:\s*([0-9a-f:]{17})/i`. -/
def findStatusBssid (d : List Char) : Option (List Char) :=
  scanFirst
    (fun t =>
      match stripCI ("bssid:".toList) t with
      | some r => bssidGroup r
      | none => none) d

/-- `/IP(?:\s+address)?:\s*([0-9.]+)/i`: the optional `\s+address` part is
tried first; the group class excludes whitespace. -/
def findStatusIp (d : List Char) : Option (List Char) :=
  scanFirst
    (fun t =>
      match stripCI ("ip".toList) t with
      | some r =>
        let withAddr :=
          let w := r.takeWhile isJsWs
          if w = [] then none
          else
            match stripCI ("address:".toList) (r.drop w.length) with
            | some r2 => wsClassRun isIpChar r2
            | none => none
        match withAddr with
        | some g => some g
        | none =>
          match r with
          | ':' :: r2 => wsClassRun isIpChar r2
          | _ => none
      | none => none) d

/-- `/Link\s+speed:\s*(\d+)/i`. -/
def findLinkSpeed (d : List Char) : Option (List Char) :=
  scanFirst
    (fun t =>
      match stripCI ("link".toList) t with
      | some r =>
        let w := r.takeWhile isJsWs
        if w = [] then none
        else
          match stripCI ("speed:".toList) (r.drop w.length) with
          | some r2 => wsClassRun Char.isDigit r2
          | none => none
      | none => none) d

/-- `-?\d+` after a whitespace run: the optional sign is consumed exactly
when a digit follows it. -/
def signedDigitsAfterWs (s : List Char) : Option (List Char) :=
  match s.dropWhile isJsWs with
  | '-' :: rest =>
    (match classRun1 Char.isDigit rest with
     | some g => some ('-' :: g)
     | none => none)
  | t => classRun1 Char.isDigit t

/-- `/RSSI:\s*(-?\d+)/i`. -/
def findStatusRssi (d : List Char) : Option (List Char) :=
  scanFirst
    (fun t =>
      match stripCI ("rssi:".toList) t with
      | some r => signedDigitsAfterWs r
      | none => none) d

/-- `/Frequency:\s*(\d+)/i`. -/
def findStatusFrequency (d : List Char) : Option (List Char) :=
  scanFirst
    (fun t =>
      match stripCI ("frequency:".toList) t with
      | some r => wsClassRun Char.isDigit r
      | none => none) d

/-- Embedding of `WifiCommands.getStatus` as a pure function of the two
shell responses (`cmd wifi status` and the filtered `dumpsys wifi`): each
field is extracted independently; a missing match leaves the field unset;
a raw ssid group equal to the literal `<none>` marker is dropped, the
comparison happening on the raw group, before trimming. -/
def getStatus (statusRes dumpsysRes : AdbResult) : WifiStatus :=
  let d := dumpsysRes.stdout.toList
  { enabled := strIncludesL (lowerL statusRes.stdout.toList) ("wifi is enabled".toList)
  , connected :=
      strIncludesL d ("state: COMPLETED".toList) || strIncludesL d ("CONNECTED".toList)
  , ssid :=
      match findStatusSsid d with
      | some g => if String.mk g = "<none>" then none else some (String.mk (trimL g))
      | none => none
  , bssid := (findStatusBssid d).map String.mk
  , ipAddress := (findStatusIp d).map String.mk
  , linkSpeed := (findLinkSpeed d).map digitsToNat
  , rssi := (findStatusRssi d).map parseSignedInt
  , frequency := (findStatusFrequency d).map digitsToNat }

/-! ## WiFi connect (`WifiCommands.connect`) -/

/-- Result record of a connect attempt (src/types.ts
`WifiConnectionResult`). -/
structure WifiConnectionResult where
  success : Bool
  ssid : String
  error : Option String
deriving DecidableEq

/-- The `cmd wifi connect-network` command line the source builds; the
password is appended only when truthy and the security is not `open`. -/
def buildConnectCommand (ssid : String) (security : String) (password : Option String) : String :=
  let base := "cmd wifi connect-network \"" ++ ssid ++ "\" " ++ security
  match password with
  | some p => if p ≠ "" ∧ security ≠ "open" then base ++ " \"" ++ p ++ "\"" else base
  | none => base

/-- Embedding of `WifiCommands.connect` as a pure function of the shell
response to the connect command and the status obtained by the follow-up
query: a failed command or an `error` marker in its stdout short-circuits
to failure with the first nonempty of stderr/stdout/fallback; otherwise
success demands the status to be connected to exactly the requested ssid. -/
def wifiConnect (ssid : String) (connectRes : AdbResult) (statusAfter : WifiStatus) :
    WifiConnectionResult :=
  if connectRes.success = false ∨
      strIncludesL (lowerL connectRes.stdout.toList) ("error".toList) = true then
    { success := false
    , ssid := ssid
    , error := some (jsOr connectRes.stderr (jsOr connectRes.stdout "Connection failed")) }
  else
    let connected := statusAfter.connected && (statusAfter.ssid == some ssid)
    { success := connected
    , ssid := ssid
    , error := if connected then none else some "Failed to verify connection" }

/-! ## Device registry (`DeviceManager.ensureDeviceSelected`) -/

/-- One attached device as enumerated (src/types.ts `Device`). -/
structure Device where
  serial : String
  state : String
  product : Option String
  model : Option String
  codename : Option String
  transportId : Option String
deriving DecidableEq

/-- Embedding of `DeviceManager.ensureDeviceSelected` as a function of the
current selection and of the device list a refresh would return; the pair
holds the outcome and the selection state afterwards. -/
def ensureDeviceSelected (currentSelection : Option String) (refreshed : List Device) :
    Except String String × Option String :=
  match currentSelection with
  | some s => (Except.ok s, some s)
  | none =>
    let connected := refreshed.filter (fun d => d.state == "device")
    match connected with
    | [] =>
      (Except.error
        "No Android devices connected. Please connect a device with USB debugging enabled.",
       none)
    | [d] => (Except.ok d.serial, some d.serial)
    | d1 :: d2 :: rest =>
      (Except.error
        (String.mk
          ("Multiple devices connected: ".toList ++
            joinWith (", ".toList) ((d1 :: d2 :: rest).map (fun d => d.serial.toList)) ++
            ". Please select a device using device_select.".toList)),
       none)

/-! ## Enterprise bridge protocol (`EnterpriseWifiCommands`) -/

/-- The three EAP methods of src/types.ts `EapMethod`. -/
inductive EapMethod
  | peap
  | ttls
  | tls
deriving DecidableEq

/-- Enterprise connection request (src/types.ts `EapConfig`). -/
structure EapConfig where
  ssid : String
  eapMethod : EapMethod
  phase2Method : Option String
  identity : String
  password : Option String
  anonymousIdentity : Option String
  domainSuffixMatch : String
  caCertificate : Option String
  clientCertificate : Option String
  privateKey : Option String
  privateKeyPassword : Option String
deriving DecidableEq

/-- Result of an enterprise exchange (src/types.ts
`EnterpriseConnectionResult`). -/
structure EnterpriseConnectionResult where
  success : Bool
  ssid : String
  eapMethod : EapMethod
  error : Option String
deriving DecidableEq

/-- JavaScript truthiness of an optional string field (`!config.password`
is true for both an absent and an empty value). -/
def truthy : Option String → Bool
  | some s => !(s == "")
  | none => false

/-- The shell commands `connectEnterprise` can issue, one tag per
`adb.shell` call site. -/
inductive EntCmd
  | checkCompanion
  | writeCommandFile
  | broadcastConnect
  | rmResultFile
  | catResultFile
deriving DecidableEq

/-- 30000 ms timeout at a 500 ms poll interval: the bound on poll
iterations of `waitForResult`. -/
def RESULT_POLLS : Nat := 60

/-- `rm -f` of the result file on the device: whatever was there, the file
is gone. -/
def rmResultFileFs (_fs : Option String) : Option String := none

/-- The polling loop of `waitForResult`: each iteration sleeps (during
which the agent may overwrite the result file), then `cat`s the file; a
missing file reads as failure, a whitespace-only body is skipped, an
unparsable body is retried, and a parsable body is cleaned up and
returned. -/
def pollLoop (parse : String → Option EnterpriseConnectionResult)
    (agentWrite : Nat → Option String) :
    Nat → Nat → Option String → Option EnterpriseConnectionResult × List EntCmd
  | 0, _, _ => (none, [])
  | fuel + 1, n, file =>
    let file2 := match agentWrite n with
      | some c => some c
      | none => file
    match file2 with
    | none =>
      let r := pollLoop parse agentWrite fuel (n + 1) none
      (r.1, EntCmd.catResultFile :: r.2)
    | some c =>
      if trimL c.toList = [] then
        let r := pollLoop parse agentWrite fuel (n + 1) (some c)
        (r.1, EntCmd.catResultFile :: r.2)
      else
        match parse c with
        | some res => (some res, [EntCmd.catResultFile, EntCmd.rmResultFile])
        | none =>
          let r := pollLoop parse agentWrite fuel (n + 1) (some c)
          (r.1, EntCmd.catResultFile :: r.2)

/-- Embedding of `EnterpriseWifiCommands.waitForResult`: any pre-existing
result file is removed first, then the loop polls the (now empty) file
channel. -/
def waitForResult (parse : String → Option EnterpriseConnectionResult)
    (agentWrite : Nat → Option String) (staleFile : Option String) :
    Option EnterpriseConnectionResult × List EntCmd :=
  let cleared := rmResultFileFs staleFile
  let r := pollLoop parse agentWrite RESULT_POLLS 0 cleared
  (r.1, EntCmd.rmResultFile :: r.2)

/-- Embedding of `EnterpriseWifiCommands.connectEnterprise`: BUILD-stage
validation before any shell command, then agent-presence check, command
file write, TRIGGER broadcast, and the polling exchange; a `none` from
the poll becomes the synthetic timeout failure. -/
def connectEnterprise (config : EapConfig) (pmStdout : String) (broadcastRes : AdbResult)
    (parse : String → Option EnterpriseConnectionResult)
    (agentWrite : Nat → Option String) (staleFile : Option String) :
    EnterpriseConnectionResult × List EntCmd :=
  if (config.eapMethod = EapMethod.peap ∨ config.eapMethod = EapMethod.ttls) ∧
      truthy config.password = false then
    ({ success := false, ssid := config.ssid, eapMethod := config.eapMethod
     , error := some "Password is required for EAP-PEAP/TTLS" }, [])
  else if config.eapMethod = EapMethod.tls ∧
      (truthy config.clientCertificate = false ∨ truthy config.privateKey = false) then
    ({ success := false, ssid := config.ssid, eapMethod := config.eapMethod
     , error := some "Client certificate and private key are required for EAP-TLS" }, [])
  else
    let installed := strIncludesL pmStdout.toList ("com.example.wifimcpcompanion".toList)
    if installed = false then
      ({ success := false, ssid := config.ssid, eapMethod := config.eapMethod
       , error := some "Companion app not installed. Please install com.example.wifimcpcompanion" },
       [EntCmd.checkCompanion])
    else if broadcastRes.success = false then
      ({ success := false, ssid := config.ssid, eapMethod := config.eapMethod
       , error := some (String.mk ("Failed to send broadcast: ".toList ++ broadcastRes.stderr.toList)) },
       [EntCmd.checkCompanion, EntCmd.writeCommandFile, EntCmd.broadcastConnect])
    else
      let w := waitForResult parse agentWrite staleFile
      (match w.1 with
       | some r => r
       | none =>
         { success := false, ssid := config.ssid, eapMethod := config.eapMethod
         , error := some "Timeout waiting for connection result" },
       [EntCmd.checkCompanion, EntCmd.writeCommandFile, EntCmd.broadcastConnect] ++ w.2)

/-! ## Diagnostics probes (`NetworkCheck.dnsLookup`) -/

/-- DNS lookup result (src/types.ts `DnsResult`). -/
structure DnsResult where
  hostname : String
  addresses : List String
  error : Option String
deriving DecidableEq

/-- The shell commands `dnsLookup` can issue, one tag per tier. -/
inductive DnsCmd
  | nslookupCmd
  | getentCmd
  | pingCmd
deriving DecidableEq

/-- `([0-9.]+|[0-9a-f:]+)` after `\s*`: the IPv4-looking alternative is
tried first; neither class contains whitespace. -/
def altGroup (s : List Char) : Option (List Char) :=
  let t := s.dropWhile isJsWs
  match classRun1 isIpChar t with
  | some g => some g
  | none => classRun1 isHexColon t

/-- `/Address(?:\s+\d)?:\s*([0-9.]+|[0-9a-f:]+)/i` at this position: the
optional `\s+\d` is one whitespace run plus a single digit, tried first. -/
def nsAddrAt (s : List Char) : Option (List Char) :=
  match stripCI ("address".toList) s with
  | some r =>
    let withNum :=
      let w := r.takeWhile isJsWs
      if w = [] then none
      else
        match r.drop w.length with
        | d :: ':' :: r2 => if d.isDigit then altGroup r2 else none
        | _ => none
    match withNum with
    | some g => some g
    | none =>
      match r with
      | ':' :: r2 => altGroup r2
      | _ => none
  | none => none

/-- The line loop of the nslookup branch: matching starts at the line that
contains `Name:` (that line included) and an address whose group contains
a colon is skipped — only IPv4-looking addresses are kept. -/
def nsCollect : List (List Char) → Bool → List String
  | [], _ => []
  | l :: ls, inAnswer =>
    let inA := inAnswer || strIncludesL l ("Name:".toList)
    let rest := nsCollect ls inA
    if inA then
      match scanFirst nsAddrAt l with
      | some g => if g.contains ':' then rest else String.mk g :: rest
      | none => rest
    else rest

/-- Tier 1: the addresses the primary `nslookup` invocation yields. -/
def tier1Addresses (nsRes : AdbResult) : List String :=
  if nsRes.success then nsCollect (splitOnCharL '\n' nsRes.stdout.toList) false else []

/-- Tier 2: `/^([0-9.]+)/` anchored at the very start of the `getent`
output. -/
def tier2Address (geRes : AdbResult) : Option String :=
  if geRes.success then (classRun1 isIpChar geRes.stdout.toList).map String.mk else none

/-- `\(([0-9.]+)\)` at this position. -/
def parenIpAt (s : List Char) : Option (List Char) :=
  match s with
  | '(' :: r =>
    (match classRun1 isIpChar r with
     | some g =>
       (match r.drop g.length with
        | ')' :: _ => some g
        | _ => none)
     | none => none)
  | _ => none

/-- Tier 3: the first parenthesised IPv4-looking address in the ping
output. -/
def tier3Address (pgRes : AdbResult) : Option String :=
  if pgRes.success then (scanFirst parenIpAt pgRes.stdout.toList).map String.mk else none

/-- Embedding of `NetworkCheck.dnsLookup` as a pure function of the three
tier responses, also returning the trace of commands issued: each tier
runs only when every earlier tier produced no address. -/
def dnsLookup (hostname : String) (nsRes geRes pgRes : AdbResult) : DnsResult × List DnsCmd :=
  let a1 := tier1Addresses nsRes
  if a1 ≠ [] then
    ({ hostname := hostname, addresses := a1, error := none }, [DnsCmd.nslookupCmd])
  else
    let a2 := match tier2Address geRes with
      | some a => [a]
      | none => []
    if a2 ≠ [] then
      ({ hostname := hostname, addresses := a2, error := none },
       [DnsCmd.nslookupCmd, DnsCmd.getentCmd])
    else
      let a3 := match tier3Address pgRes with
        | some a => [a]
        | none => []
      if a3 ≠ [] then
        ({ hostname := hostname, addresses := a3, error := none },
         [DnsCmd.nslookupCmd, DnsCmd.getentCmd, DnsCmd.pingCmd])
      else
        ({ hostname := hostname, addresses := [], error := some "DNS lookup failed" },
         [DnsCmd.nslookupCmd, DnsCmd.getentCmd, DnsCmd.pingCmd])

/-! ## Supporting lemmas -/

theorem startsWithL_here (n t : List Char) : startsWithL n (n ++ t) = true := by
  induction n with
  | nil => rfl
  | cons a as ih => simp [startsWithL, ih]

theorem strIncludesL_here (n t : List Char) : strIncludesL (n ++ t) n = true := by
  cases n with
  | nil =>
    cases t with
    | nil => rfl
    | cons b bs => simp [strIncludesL, startsWithL]
  | cons a as =>
    have h := startsWithL_here (a :: as) t
    simp only [strIncludesL, List.cons_append] at *
    simp [h]

theorem strIncludesL_append_left (s rest n : List Char) (h : strIncludesL rest n = true) :
    strIncludesL (s ++ rest) n = true := by
  induction s with
  | nil => simpa using h
  | cons a as ih => simp [strIncludesL, ih]

theorem strIncludesL_of_decomp (a n b : List Char) : strIncludesL (a ++ (n ++ b)) n = true :=
  strIncludesL_append_left a (n ++ b) n (strIncludesL_here n b)

theorem joinWith_mem_decomp (sep : List Char) :
    ∀ (ls : List (List Char)) (x : List Char), x ∈ ls →
      ∃ a b, joinWith sep ls = a ++ (x ++ b) := by
  intro ls
  induction ls with
  | nil => intro x hx; cases hx
  | cons y ys ih =>
    intro x hx
    cases hx with
    | head =>
      cases ys with
      | nil => exact ⟨[], [], by simp [joinWith]⟩
      | cons z zs => exact ⟨[], sep ++ joinWith sep (z :: zs), by simp [joinWith]⟩
    | tail _ hmem =>
      cases ys with
      | nil => cases hmem
      | cons z zs =>
        obtain ⟨a, b, hab⟩ := ih x hmem
        exact ⟨y ++ sep ++ a, b, by simp [joinWith, hab]⟩

theorem splitOnCharL_ne_nil (c : Char) (s : List Char) : splitOnCharL c s ≠ [] := by
  induction s with
  | nil => simp [splitOnCharL]
  | cons a rest ih =>
    unfold splitOnCharL
    cases h : splitOnCharL c rest with
    | nil => exact absurd h ih
    | cons r rs =>
      by_cases hc : a == c <;> simp [hc]

theorem filterMap_length_lt_of_none {α β : Type} (f : α → Option β) (l : List α) (x : α)
    (hx : x ∈ l) (hf : f x = none) : (l.filterMap f).length < l.length := by
  induction l with
  | nil => cases hx
  | cons a as ih =>
    cases hx with
    | head =>
      simp only [List.filterMap_cons, hf]
      exact Nat.lt_succ_of_le (List.length_filterMap_le f as)
    | tail _ hmem =>
      cases hfa : f a with
      | none =>
        simp only [List.filterMap_cons, hfa]
        exact Nat.lt_succ_of_lt (ih hmem)
      | some b =>
        simp only [List.filterMap_cons, hfa, List.length_cons]
        exact Nat.succ_lt_succ (ih hmem)

theorem classRun1_some_ne_nil {p : Char → Bool} {s g : List Char}
    (h : classRun1 p s = some g) : g ≠ [] := by
  unfold classRun1 at h
  by_cases hc : s.takeWhile p = []
  · simp [hc] at h
  · simp [hc] at h
    exact h ▸ hc

theorem tryQuoteGroup_some_ne_nil {p : Char → Bool} {s g : List Char}
    (h : tryQuoteGroup p s = some g) : g ≠ [] := by
  unfold tryQuoteGroup at h
  cases s with
  | nil =>
    simp at h
    exact classRun1_some_ne_nil h
  | cons c rest =>
    by_cases hq : (c == '"' || c == squote) = true
    · simp only [hq, if_pos] at h
      cases hcr : classRun1 p rest with
      | some g2 =>
        rw [hcr] at h
        simp at h
        exact h ▸ classRun1_some_ne_nil hcr
      | none =>
        rw [hcr] at h
        simp at h
        exact classRun1_some_ne_nil h
    · simp only [hq] at h
      simp at h
      exact classRun1_some_ne_nil h

theorem wsBacktrack_some_ne_nil {p : Char → Bool} :
    ∀ (j : Nat) (s g : List Char), wsBacktrack p j s = some g → g ≠ [] := by
  intro j
  induction j with
  | zero => intro s g h; exact tryQuoteGroup_some_ne_nil h
  | succ j ih =>
    intro s g h
    unfold wsBacktrack at h
    cases ht : tryQuoteGroup p (s.drop (j + 1)) with
    | some g2 =>
      rw [ht] at h
      simp at h
      exact h ▸ tryQuoteGroup_some_ne_nil ht
    | none =>
      rw [ht] at h
      simp at h
      exact ih s g h

theorem wsThenGroup_some_ne_nil {p : Char → Bool} {s g : List Char}
    (h : wsThenGroup p s = some g) : g ≠ [] :=
  wsBacktrack_some_ne_nil _ _ _ h

theorem scanFirst_some {f : List Char → Option (List Char)} :
    ∀ {s g : List Char}, scanFirst f s = some g → ∃ t, f t = some g := by
  intro s
  induction s with
  | nil => intro g h; simp [scanFirst] at h
  | cons a rest ih =>
    intro g h
    unfold scanFirst at h
    cases hf : f (a :: rest) with
    | some g2 =>
      rw [hf] at h
      simp at h
      exact ⟨a :: rest, h ▸ hf⟩
    | none =>
      rw [hf] at h
      simp at h
      exact ih h

theorem parseScanLine_eq_none {l : List Char}
    (h : isMacToken ((scanTokens l).headD []) = false) : parseScanLine l = none := by
  unfold scanTokens at h
  unfold parseScanLine
  by_cases he : trimL l = []
  · simp [he]
  · rw [if_neg he]
    dsimp only
    cases hp : wsTokens (trimL ((trimL l).takeWhile (fun c => !(c == '[')))) with
    | nil => rfl
    | cons p0 t =>
      cases t with
      | nil => rfl
      | cons p1 t2 =>
        cases t2 with
        | nil => rfl
        | cons p2 t3 =>
          rw [hp] at h
          simp at h
          simp [h]

theorem parseScanLine_some_inv {l : List Char} {r : ScanResult}
    (h : parseScanLine l = some r) :
    isMacToken r.bssid.toList = true ∧
    r.security = securityFromFlags ((trimL l).dropWhile (fun c => !(c == '['))) ∧
    (isFreqToken ((scanTokens l).getD 1 []) = false → r.frequency = 0) ∧
    (isRssiToken ((scanTokens l).getD 2 []) = false → r.rssi = 0) := by
  unfold parseScanLine at h
  unfold scanTokens
  by_cases he : trimL l = []
  · rw [if_pos he] at h
    cases h
  · rw [if_neg he] at h
    dsimp only at h
    cases hp : wsTokens (trimL ((trimL l).takeWhile (fun c => !(c == '[')))) with
    | nil => rw [hp] at h; cases h
    | cons p0 t =>
      cases t with
      | nil => rw [hp] at h; cases h
      | cons p1 t2 =>
        cases t2 with
        | nil => rw [hp] at h; cases h
        | cons p2 t3 =>
          rw [hp] at h
          by_cases hm : isMacToken p0 = true
          · simp only [hm, if_true, ite_true, Option.some.injEq] at h
            subst h
            refine ⟨hm, rfl, ?_, ?_⟩
            · intro hf
              simp at hf
              simp [hf]
            · intro hr
              simp at hr
              simp [hr]
          · simp only [hm] at h
            simp at h

theorem parseSavedLine_eq_none {l : List Char}
    (h : scanFirst savedIdAt (trimL l) = none) : parseSavedLine l = none := by
  unfold parseSavedLine
  by_cases he : trimL l = []
  · rw [if_pos he]
  · rw [if_neg he]
    rw [h]

theorem nsCollect_no_colon :
    ∀ (ls : List (List Char)) (b : Bool) (s : String),
      s ∈ nsCollect ls b → s.toList.contains ':' = false := by
  intro ls
  induction ls with
  | nil => intro b s h; simp [nsCollect] at h
  | cons l rest ih =>
    intro b s h
    unfold nsCollect at h
    dsimp only at h
    by_cases hA : (b || strIncludesL l ("Name:".toList)) = true
    · rw [if_pos hA] at h
      cases hs : scanFirst nsAddrAt l with
      | none =>
        rw [hs] at h
        dsimp only at h
        exact ih _ s h
      | some g =>
        rw [hs] at h
        dsimp only at h
        by_cases hc : g.contains ':' = true
        · rw [if_pos hc] at h
          exact ih _ s h
        · rw [if_neg hc] at h
          cases h with
          | head => simpa using hc
          | tail _ hmem => exact ih _ s hmem
    · rw [if_neg hA] at h
      exact ih _ s h

theorem pollLoop_origin (parse : String → Option EnterpriseConnectionResult)
    (agentWrite : Nat → Option String) :
    ∀ (fuel n : Nat) (file : Option String) (r : EnterpriseConnectionResult),
      (file = none ∨ ∃ m c, agentWrite m = some c ∧ file = some c) →
      (pollLoop parse agentWrite fuel n file).1 = some r →
      ∃ m c, agentWrite m = some c ∧ parse c = some r := by
  intro fuel
  induction fuel with
  | zero => intro n file r _ h; simp [pollLoop] at h
  | succ fuel ih =>
    intro n file r hinv h
    unfold pollLoop at h
    dsimp only at h
    cases hw : agentWrite n with
    | some c =>
      rw [hw] at h
      dsimp only at h
      by_cases hb : trimL c.toList = []
      · rw [if_pos hb] at h
        dsimp only at h
        exact ih (n + 1) (some c) r (Or.inr ⟨n, c, hw, rfl⟩) h
      · rw [if_neg hb] at h
        cases hp : parse c with
        | some res =>
          rw [hp] at h
          dsimp only at h
          simp at h
          exact ⟨n, c, hw, h ▸ hp⟩
        | none =>
          rw [hp] at h
          dsimp only at h
          exact ih (n + 1) (some c) r (Or.inr ⟨n, c, hw, rfl⟩) h
    | none =>
      rw [hw] at h
      dsimp only at h
      cases hinv with
      | inl hn =>
        rw [hn] at h
        dsimp only at h
        exact ih (n + 1) none r (Or.inl rfl) h
      | inr hex =>
        obtain ⟨m, c, hmc, hfile⟩ := hex
        rw [hfile] at h
        dsimp only at h
        by_cases hb : trimL c.toList = []
        · rw [if_pos hb] at h
          dsimp only at h
          exact ih (n + 1) (some c) r (Or.inr ⟨m, c, hmc, rfl⟩) h
        · rw [if_neg hb] at h
          cases hp : parse c with
          | some res =>
            rw [hp] at h
            dsimp only at h
            simp at h
            exact ⟨m, c, hmc, h ▸ hp⟩
          | none =>
            rw [hp] at h
            dsimp only at h
            exact ih (n + 1) (some c) r (Or.inr ⟨m, c, hmc, rfl⟩) h

theorem securityFromFlags_eq_spec (flags : List Char) :
    securityFromFlags flags = securityBySpecPriority flags := by
  by_cases hE : flags = []
  · subst hE; decide
  · unfold securityFromFlags securityBySpecPriority securityPriorityTable
    rw [if_neg hE]
    by_cases h1 : strIncludesL flags ("SAE".toList) = true <;>
      by_cases h2 : strIncludesL flags ("WPA3".toList) = true <;>
        by_cases h3 : strIncludesL flags ("WPA2".toList) = true <;>
          by_cases h4 : strIncludesL flags ("WPA".toList) = true <;>
            by_cases h5 : strIncludesL flags ("WEP".toList) = true <;>
              by_cases h6 : strIncludesL flags ("OWE".toList) = true <;>
                simp_all [List.find?]

theorem getStatus_ssid_eq {sres dres : AdbResult} :
    (getStatus sres dres).ssid =
      (match findStatusSsid dres.stdout.toList with
       | some g => if String.mk g = "<none>" then none else some (String.mk (trimL g))
       | none => none) := rfl

theorem getStatus_bssid_eq {sres dres : AdbResult} :
    (getStatus sres dres).bssid = (findStatusBssid dres.stdout.toList).map String.mk := rfl

theorem getStatus_ip_eq {sres dres : AdbResult} :
    (getStatus sres dres).ipAddress = (findStatusIp dres.stdout.toList).map String.mk := rfl

theorem getStatus_linkSpeed_eq {sres dres : AdbResult} :
    (getStatus sres dres).linkSpeed = (findLinkSpeed dres.stdout.toList).map digitsToNat := rfl

theorem getStatus_rssi_eq {sres dres : AdbResult} :
    (getStatus sres dres).rssi = (findStatusRssi dres.stdout.toList).map parseSignedInt := rfl

theorem getStatus_frequency_eq {sres dres : AdbResult} :
    (getStatus sres dres).frequency =
      (findStatusFrequency dres.stdout.toList).map digitsToNat := rfl

theorem findStatusSsid_some_ne_nil {d g : List Char}
    (h : findStatusSsid d = some g) : g ≠ [] := by
  unfold findStatusSsid at h
  obtain ⟨t, ht⟩ := scanFirst_some h
  cases hs : stripCI ("ssid:".toList) t with
  | some r =>
    rw [hs] at ht
    exact wsThenGroup_some_ne_nil ht
  | none =>
    rw [hs] at ht
    cases ht

theorem jsOr_ne_empty {a b : String} (hb : b ≠ "") : jsOr a b ≠ "" := by
  unfold jsOr
  split_ifs with h
  · exact hb
  · exact h

/-! ## The claims -/

/-- Claim C1: the command executor never raises for a failed command — in
the embedding `AdbClient.exec` is a total function into `AdbResult` — and
a failed execution maps to success = false with a never-empty stderr
(captured stderr when present, else the error message, else a fixed
fallback), a nonzero exit code (the captured code when nonzero), while a
successful execution maps to success = true with trimmed output; when the
per-call timeout elapses the call reports success = false with a
timeout-specific stderr marker. -/
theorem c1_exec_contract :
    (∀ out err, AdbClient.exec (ExecOutcome.ok out err) = ⟨true, trimStr out, trimStr err, 0⟩) ∧
    (∀ so se c m,
      (AdbClient.exec (ExecOutcome.failed so se c m)).success = false ∧
      (AdbClient.exec (ExecOutcome.failed so se c m)).stderr ≠ "" ∧
      (AdbClient.exec (ExecOutcome.failed so se c m)).exitCode ≠ 0) ∧
    (∀ so s c m, trimStr s ≠ "" →
      (AdbClient.exec (ExecOutcome.failed so (some s) c m)).stderr = trimStr s) ∧
    (∀ so se m (k : Nat), k ≠ 0 →
      (AdbClient.exec (ExecOutcome.failed so se (some k) m)).exitCode = k) ∧
    (∀ cmd ps,
      (AdbClient.shell cmd (timeoutOutcome ps)).success = false ∧
      strIncludesL (AdbClient.shell cmd (timeoutOutcome ps)).stderr.toList
        ("timed out".toList) = true) := by
  refine ⟨fun out err => rfl, ?_, ?_, ?_, ?_⟩
  · intro so se c m
    refine ⟨rfl, ?_, ?_⟩
    · exact jsOr_ne_empty (jsOr_ne_empty (by decide))
    · show (match c with
        | some n => if n = 0 then 1 else n
        | none => 1) ≠ 0
      cases c with
      | none => decide
      | some n =>
        by_cases hn : n = 0
        · simp [hn]
        · simp [hn]
  · intro so s c m hs
    show jsOr (trimStr s) _ = trimStr s
    unfold jsOr
    rw [if_neg hs]
  · intro so se m k hk
    show (if k = 0 then 1 else k) = k
    rw [if_neg hk]
  · intro cmd ps
    refine ⟨rfl, ?_⟩
    show strIncludesL (jsOr "" (jsOr "the command timed out" "Unknown error")).toList
      ("timed out".toList) = true
    decide

/-- Witness for C1 at a concrete failed execution. -/
theorem c1_exec_contract_witness :
    (AdbClient.exec (ExecOutcome.failed none (some " boom ") (some 5) none)).stderr =
      trimStr " boom " ∧
    (AdbClient.exec (ExecOutcome.failed none none (some 5) none)).exitCode = 5 :=
  ⟨c1_exec_contract.2.2.1 none " boom " (some 5) none (by decide),
   c1_exec_contract.2.2.2.1 none none none 5 (by decide)⟩

/-- Claim C2: a scan line whose first whitespace token fails the strict
6-group colon-hex MAC pattern produces no record; every emitted record
carries a MAC-shaped bssid; the record count never exceeds the line
count, and is strictly below it as soon as one line is MAC-malformed. -/
theorem c2_scan_mac_gate (output : String) :
    (∀ l, isMacToken ((scanTokens l).headD []) = false → parseScanLine l = none) ∧
    (∀ r ∈ parseScanResults output, isMacToken r.bssid.toList = true) ∧
    (parseScanResults output).length ≤ (splitOnCharL '\n' output.toList).length ∧
    ((∃ l ∈ splitOnCharL '\n' output.toList, isMacToken ((scanTokens l).headD []) = false) →
      (parseScanResults output).length < (splitOnCharL '\n' output.toList).length) := by
  refine ⟨fun l h => parseScanLine_eq_none h, ?_, ?_, ?_⟩
  · intro r hr
    unfold parseScanResults at hr
    dsimp only at hr
    rw [List.mem_filterMap] at hr
    obtain ⟨l, _, hl⟩ := hr
    exact (parseScanLine_some_inv hl).1
  · unfold parseScanResults
    dsimp only
    refine le_trans (List.length_filterMap_le _ _) ?_
    rw [List.length_drop]
    exact Nat.sub_le _ _
  · rintro ⟨l, hl, hml⟩
    unfold parseScanResults
    dsimp only
    by_cases hh :
        strIncludesL ((splitOnCharL '\n' output.toList).headD []) ("BSSID".toList) = true
    · rw [if_pos hh]
      have hne := splitOnCharL_ne_nil '\n' output.toList
      have hpos : 0 < (splitOnCharL '\n' output.toList).length := List.length_pos.mpr hne
      refine lt_of_le_of_lt (List.length_filterMap_le _ _) ?_
      rw [List.length_drop]
      exact Nat.sub_lt hpos Nat.one_pos
    · rw [if_neg hh, List.drop_zero]
      exact filterMap_length_lt_of_none parseScanLine _ l hl (parseScanLine_eq_none hml)

/-- Witness for C2 on a two-line input whose first line is malformed. -/
theorem c2_scan_mac_gate_witness :
    (parseScanResults "not-a-mac 2412 -51 1.0 X\n84:18:3a:06:be:58 2412 -51 17.2 Home").length <
      (splitOnCharL '\n'
        ("not-a-mac 2412 -51 1.0 X\n84:18:3a:06:be:58 2412 -51 17.2 Home").toList).length :=
  (c2_scan_mac_gate "not-a-mac 2412 -51 1.0 X\n84:18:3a:06:be:58 2412 -51 17.2 Home").2.2.2
    ⟨("not-a-mac 2412 -51 1.0 X".toList), by decide, by decide⟩

/-- Claim C3: the security label equals first-match evaluation of the
explicit ordered priority table SAE > WPA3 > WPA2 > WPA > WEP > OWE >
Open; the label of every parsed record is derived this way from the
bracket suffix of its line; and a capability string containing a WPA2
marker together with an SAE or WPA3 marker is labelled SAE or WPA3,
never WPA2. -/
theorem c3_security_priority (flags : List Char) :
    securityFromFlags flags = securityBySpecPriority flags ∧
    (∀ l r, parseScanLine l = some r →
      r.security = securityFromFlags ((trimL l).dropWhile (fun c => !(c == '[')))) ∧
    (strIncludesL flags ("WPA2".toList) = true →
      (strIncludesL flags ("SAE".toList) = true ∨ strIncludesL flags ("WPA3".toList) = true) →
      ((securityFromFlags flags = "SAE" ∨ securityFromFlags flags = "WPA3") ∧
        securityFromFlags flags ≠ "WPA2")) := by
  refine ⟨securityFromFlags_eq_spec flags, ?_, ?_⟩
  · intro l r h
    exact (parseScanLine_some_inv h).2.1
  · intro h2 h13
    have hne : flags ≠ [] := by
      intro hE
      subst hE
      exact absurd h2 (by decide)
    by_cases hS : strIncludesL flags ("SAE".toList) = true
    · have hval : securityFromFlags flags = "SAE" := by
        unfold securityFromFlags
        rw [if_neg hne, if_pos hS]
      exact ⟨Or.inl hval, by rw [hval]; decide⟩
    · have h3 : strIncludesL flags ("WPA3".toList) = true := by
        cases h13 with
        | inl h => exact absurd h hS
        | inr h => exact h
      have hval : securityFromFlags flags = "WPA3" := by
        unfold securityFromFlags
        rw [if_neg hne, if_neg (by simpa using hS), if_pos h3]
      exact ⟨Or.inr hval, by rw [hval]; decide⟩

/-- Witness for C3 on a capability string holding both WPA2 and SAE. -/
theorem c3_security_priority_witness :
    (securityFromFlags ("[WPA2-PSK-CCMP][RSN-SAE-CCMP][ESS]".toList) = "SAE" ∨
      securityFromFlags ("[WPA2-PSK-CCMP][RSN-SAE-CCMP][ESS]".toList) = "WPA3") ∧
    securityFromFlags ("[WPA2-PSK-CCMP][RSN-SAE-CCMP][ESS]".toList) ≠ "WPA2" :=
  (c3_security_priority _).2.2 (by decide) (Or.inl (by decide))

/-- Counterexample for C4: the guard against the absence marker compares
the raw regex group before trimming, so a whitespace-only group yields an
empty-string ssid and a group carrying whitespace around the marker
yields the literal marker itself. -/
theorem c4_ssid_counterexample :
    (getStatus ⟨true, "", "", 0⟩ ⟨true, "SSID: ,", "", 0⟩).ssid = some "" ∧
    (getStatus ⟨true, "", "", 0⟩ ⟨true, "SSID: <none> ", "", 0⟩).ssid = some "<none>" := by
  constructor <;> decide

/-- Claim C4 (amended): the status parser leaves ssid unset when the ssid
pattern finds no match, and drops a raw match equal to the literal
absence marker; every returned ssid is the trimmed value of a nonempty
raw match whose untrimmed form differs from the marker — so trimming
after the check can still surface an empty string or the marker itself. -/
theorem c4_ssid_amended (statusRes dumpsysRes : AdbResult) :
    (getStatus statusRes dumpsysRes).ssid = none ∨
    ∃ g, findStatusSsid dumpsysRes.stdout.toList = some g ∧ g ≠ [] ∧
      String.mk g ≠ "<none>" ∧
      (getStatus statusRes dumpsysRes).ssid = some (String.mk (trimL g)) := by
  cases hf : findStatusSsid dumpsysRes.stdout.toList with
  | none =>
    left
    rw [getStatus_ssid_eq, hf]
  | some g =>
    by_cases hn : String.mk g = "<none>"
    · left
      rw [getStatus_ssid_eq, hf]
      dsimp only
      rw [if_pos hn]
    · right
      refine ⟨g, rfl, findStatusSsid_some_ne_nil hf, hn, ?_⟩
      rw [getStatus_ssid_eq, hf]
      dsimp only
      rw [if_neg hn]

/-- Claim C5: ensureDeviceSelected returns the current selection
untouched when set; with no selection it auto-selects a sole ready
device, fails with the no-device error when none is ready, and with two
or more ready devices fails with an ambiguity error whose text contains
every ready serial, leaving nothing selected. -/
theorem c5_ensure_selected (cur : Option String) (refreshed : List Device) :
    (∀ s, cur = some s → ensureDeviceSelected cur refreshed = (Except.ok s, some s)) ∧
    (cur = none → refreshed.filter (fun d => d.state == "device") = [] →
      ensureDeviceSelected cur refreshed =
        (Except.error
          "No Android devices connected. Please connect a device with USB debugging enabled.",
         none)) ∧
    (∀ d, cur = none → refreshed.filter (fun d => d.state == "device") = [d] →
      ensureDeviceSelected cur refreshed = (Except.ok d.serial, some d.serial)) ∧
    (cur = none → 2 ≤ (refreshed.filter (fun d => d.state == "device")).length →
      ∃ e, (ensureDeviceSelected cur refreshed).1 = Except.error e ∧
        (ensureDeviceSelected cur refreshed).2 = none ∧
        ∀ d ∈ refreshed.filter (fun d => d.state == "device"),
          strIncludesL e.toList d.serial.toList = true) := by
  refine ⟨?_, ?_, ?_, ?_⟩
  · intro s hs
    subst hs
    rfl
  · intro hc hnil
    subst hc
    unfold ensureDeviceSelected
    rw [hnil]
  · intro d hc hone
    subst hc
    unfold ensureDeviceSelected
    rw [hone]
  · intro hc hlen
    subst hc
    unfold ensureDeviceSelected
    cases hcon : refreshed.filter (fun d => d.state == "device") with
    | nil =>
      rw [hcon] at hlen
      simp at hlen
    | cons d1 t =>
      cases t with
      | nil =>
        rw [hcon] at hlen
        simp at hlen
      | cons d2 rest =>
        dsimp only
        refine ⟨_, rfl, rfl, ?_⟩
        intro d hd
        have hmem : d.serial.toList ∈ (d1 :: d2 :: rest).map (fun d => d.serial.toList) :=
          List.mem_map_of_mem _ hd
        obtain ⟨a, b, hab⟩ := joinWith_mem_decomp (", ".toList) _ _ hmem
        show strIncludesL
          ("Multiple devices connected: ".toList ++
            joinWith (", ".toList) ((d1 :: d2 :: rest).map (fun d => d.serial.toList)) ++
            ". Please select a device using device_select.".toList) (d.serial.toList) = true
        rw [hab]
        have key := strIncludesL_of_decomp
          ("Multiple devices connected: ".toList ++ a) (d.serial.toList)
          (b ++ ". Please select a device using device_select.".toList)
        have harr :
            ("Multiple devices connected: ".toList ++ (a ++ (d.serial.toList ++ b)) ++
              ". Please select a device using device_select.".toList) =
            (("Multiple devices connected: ".toList ++ a) ++
              (d.serial.toList ++
                (b ++ ". Please select a device using device_select.".toList))) := by
          simp [List.append_assoc]
        rw [harr]
        exact key

/-- Witness for C5 with two ready devices: the ambiguity error names both
serials. -/
theorem c5_ensure_selected_witness :
    ∃ e,
      (ensureDeviceSelected none
        [⟨"SER1", "device", none, none, none, none⟩,
         ⟨"SER2", "device", none, none, none, none⟩]).1 = Except.error e ∧
      (ensureDeviceSelected none
        [⟨"SER1", "device", none, none, none, none⟩,
         ⟨"SER2", "device", none, none, none, none⟩]).2 = none ∧
      ∀ d ∈ ([⟨"SER1", "device", none, none, none, none⟩,
              ⟨"SER2", "device", none, none, none, none⟩] : List Device).filter
          (fun d => d.state == "device"),
        strIncludesL e.toList d.serial.toList = true :=
  (c5_ensure_selected none _).2.2.2 rfl (by decide)

/-- Claim C6: an enterprise connect request using a password-requiring
method without a truthy password, or the certificate method without a
client certificate or private key, fails locally at the BUILD stage with
an empty command trace — no agent-presence check, file write, broadcast
or poll is issued. -/
theorem c6_enterprise_build_validation (config : EapConfig) (pmStdout : String)
    (broadcastRes : AdbResult) (parse : String → Option EnterpriseConnectionResult)
    (agentWrite : Nat → Option String) (staleFile : Option String) :
    ((config.eapMethod = EapMethod.peap ∨ config.eapMethod = EapMethod.ttls) →
      truthy config.password = false →
      connectEnterprise config pmStdout broadcastRes parse agentWrite staleFile =
        ({ success := false, ssid := config.ssid, eapMethod := config.eapMethod
         , error := some "Password is required for EAP-PEAP/TTLS" }, [])) ∧
    (config.eapMethod = EapMethod.tls →
      (truthy config.clientCertificate = false ∨ truthy config.privateKey = false) →
      connectEnterprise config pmStdout broadcastRes parse agentWrite staleFile =
        ({ success := false, ssid := config.ssid, eapMethod := config.eapMethod
         , error := some "Client certificate and private key are required for EAP-TLS" },
         [])) := by
  constructor
  · intro hm hp
    unfold connectEnterprise
    rw [if_pos ⟨hm, hp⟩]
  · intro hm hck
    unfold connectEnterprise
    rw [if_neg (by rw [hm]; simp), if_pos ⟨hm, hck⟩]

/-- Witness for C6: a PEAP request without a password issues nothing. -/
theorem c6_enterprise_build_validation_witness :
    connectEnterprise
      ⟨"CorpNet", EapMethod.peap, none, "alice", none, none, "corp.example.com",
        none, none, none, none⟩
      "" ⟨true, "", "", 0⟩ (fun _ => none) (fun _ => none) none =
      ({ success := false, ssid := "CorpNet", eapMethod := EapMethod.peap
       , error := some "Password is required for EAP-PEAP/TTLS" }, []) :=
  (c6_enterprise_build_validation _ _ _ _ _ _).1 (Or.inl rfl) (by decide)

/-- Claim C7: the exchange clears the result-file channel before polling
— the outcome is independent of any stale file contents, the first
command the wait issues is the deletion, any delivered result stems from
an agent write performed during the polling window, and on the
non-failing path of connectEnterprise that deletion comes right after
the TRIGGER broadcast and before every poll read. -/
theorem c7_stale_result_discarded (parse : String → Option EnterpriseConnectionResult)
    (agentWrite : Nat → Option String) (stale1 stale2 : Option String) :
    waitForResult parse agentWrite stale1 = waitForResult parse agentWrite stale2 ∧
    (waitForResult parse agentWrite stale1).2.head? = some EntCmd.rmResultFile ∧
    (∀ r, (waitForResult parse agentWrite stale1).1 = some r →
      ∃ m c, agentWrite m = some c ∧ parse c = some r) ∧
    (∀ (config : EapConfig) (pmStdout : String) (broadcastRes : AdbResult),
      ¬((config.eapMethod = EapMethod.peap ∨ config.eapMethod = EapMethod.ttls) ∧
        truthy config.password = false) →
      ¬(config.eapMethod = EapMethod.tls ∧
        (truthy config.clientCertificate = false ∨ truthy config.privateKey = false)) →
      strIncludesL pmStdout.toList ("com.example.wifimcpcompanion".toList) = true →
      broadcastRes.success = true →
      (connectEnterprise config pmStdout broadcastRes parse agentWrite stale1).2 =
        [EntCmd.checkCompanion, EntCmd.writeCommandFile, EntCmd.broadcastConnect] ++
          (waitForResult parse agentWrite stale1).2) := by
  refine ⟨rfl, rfl, ?_, ?_⟩
  · intro r h
    unfold waitForResult rmResultFileFs at h
    dsimp only at h
    exact pollLoop_origin parse agentWrite RESULT_POLLS 0 none r (Or.inl rfl) h
  · intro config pmStdout broadcastRes hv1 hv2 hInst hB
    unfold connectEnterprise
    rw [if_neg hv1, if_neg hv2]
    dsimp only
    rw [if_neg (by rw [hInst]; simp), if_neg (by rw [hB]; simp)]

/-- Witness for C7: a stale file does not change the exchange. -/
theorem c7_stale_result_discarded_witness :
    waitForResult (fun s => if s = "done" then some ⟨true, "N", EapMethod.peap, none⟩ else none)
      (fun _ => none) (some "stale unread result") =
    waitForResult (fun s => if s = "done" then some ⟨true, "N", EapMethod.peap, none⟩ else none)
      (fun _ => none) none :=
  (c7_stale_result_discarded
    (fun s => if s = "done" then some ⟨true, "N", EapMethod.peap, none⟩ else none)
    (fun _ => none) (some "stale unread result") none).1

/-- Claim C8: the DNS lookup stops at the first tier that yields an
address — with a nonempty tier-1 harvest the trace holds only the
nslookup command; with an empty tier 1 and a tier-2 address the trace
holds exactly the first two commands; otherwise all three run — and
every tier-1 address is colon-free, the IPv6-shaped groups having been
filtered out. -/
theorem c8_dns_tiers (hostname : String) (nsRes geRes pgRes : AdbResult) :
    (tier1Addresses nsRes ≠ [] →
      dnsLookup hostname nsRes geRes pgRes =
        ({ hostname := hostname, addresses := tier1Addresses nsRes, error := none },
         [DnsCmd.nslookupCmd])) ∧
    (tier1Addresses nsRes = [] → ∀ a, tier2Address geRes = some a →
      dnsLookup hostname nsRes geRes pgRes =
        ({ hostname := hostname, addresses := [a], error := none },
         [DnsCmd.nslookupCmd, DnsCmd.getentCmd])) ∧
    (tier1Addresses nsRes = [] → tier2Address geRes = none →
      (dnsLookup hostname nsRes geRes pgRes).2 =
        [DnsCmd.nslookupCmd, DnsCmd.getentCmd, DnsCmd.pingCmd]) ∧
    (∀ s ∈ tier1Addresses nsRes, s.toList.contains ':' = false) := by
  refine ⟨?_, ?_, ?_, ?_⟩
  · intro h
    unfold dnsLookup
    dsimp only
    rw [if_pos h]
  · intro h1 a h2
    unfold dnsLookup
    dsimp only
    rw [h1, h2]
    dsimp only
    rw [if_neg (by simp), if_pos (by simp)]
  · intro h1 h2
    unfold dnsLookup
    dsimp only
    rw [h1, h2]
    dsimp only
    rw [if_neg (by simp), if_neg (by simp)]
    cases h3 : tier3Address pgRes with
    | some a =>
      dsimp only
      rw [if_pos (by simp)]
    | none =>
      dsimp only
      rw [if_neg (by simp)]
  · intro s hs
    unfold tier1Addresses at hs
    by_cases h : nsRes.success = true
    · rw [if_pos h] at hs
      exact nsCollect_no_colon _ _ _ hs
    · rw [if_neg h] at hs
      cases hs

/-- Witness for C8: a successful tier-1 lookup leaves tiers 2 and 3
unissued. -/
theorem c8_dns_tiers_witness :
    dnsLookup "example.com"
      ⟨true, "Name: example.com\nAddress: 93.184.216.34", "", 0⟩
      ⟨true, "10.0.0.1 example.com", "", 0⟩
      ⟨true, "PING example.com (10.0.0.1)", "", 0⟩ =
      ({ hostname := "example.com", addresses := ["93.184.216.34"], error := none },
       [DnsCmd.nslookupCmd]) :=
  (c8_dns_tiers "example.com" _ _ _).1 (by decide)

/-- Counterexample for C9: a line with a well-formed MAC whose frequency
and signal tokens both fail their patterns still yields a record, with
both numeric fields fabricated as 0. -/
theorem c9_default_counterexample :
    parseScanResults "aa:bb:cc:dd:ee:ff notanum notanum" =
      [{ ssid := "<hidden>", bssid := "aa:bb:cc:dd:ee:ff", frequency := 0, rssi := 0,
         security := "Open" }] ∧
    isFreqToken ("notanum".toList) = false ∧ isRssiToken ("notanum".toList) = false := by
  refine ⟨by decide, by decide, by decide⟩

/-- Claim C9 (amended): the parsers are total functions that never raise;
a scan line without a MAC-shaped first token is dropped, a saved-network
line without an id match is dropped, and a status field without a match
is left unset; but a scan line that does carry a MAC keeps frequency and
signal at 0 when their tokens fail the patterns — the numeric fields are
defaulted, not omitted. -/
theorem c9_malformed_amended :
    (∀ l, isMacToken ((scanTokens l).headD []) = false → parseScanLine l = none) ∧
    (∀ l, scanFirst savedIdAt (trimL l) = none → parseSavedLine l = none) ∧
    (∀ sres dres : AdbResult, findStatusSsid dres.stdout.toList = none →
      (getStatus sres dres).ssid = none) ∧
    (∀ sres dres : AdbResult, findStatusBssid dres.stdout.toList = none →
      (getStatus sres dres).bssid = none) ∧
    (∀ sres dres : AdbResult, findStatusIp dres.stdout.toList = none →
      (getStatus sres dres).ipAddress = none) ∧
    (∀ sres dres : AdbResult, findLinkSpeed dres.stdout.toList = none →
      (getStatus sres dres).linkSpeed = none) ∧
    (∀ sres dres : AdbResult, findStatusRssi dres.stdout.toList = none →
      (getStatus sres dres).rssi = none) ∧
    (∀ sres dres : AdbResult, findStatusFrequency dres.stdout.toList = none →
      (getStatus sres dres).frequency = none) ∧
    (∀ l r, parseScanLine l = some r →
      (isFreqToken ((scanTokens l).getD 1 []) = false → r.frequency = 0) ∧
      (isRssiToken ((scanTokens l).getD 2 []) = false → r.rssi = 0)) := by
  refine ⟨fun l h => parseScanLine_eq_none h, fun l h => parseSavedLine_eq_none h,
    ?_, ?_, ?_, ?_, ?_, ?_, ?_⟩
  · intro s d h
    rw [getStatus_ssid_eq, h]
  · intro s d h
    rw [getStatus_bssid_eq, h]
    rfl
  · intro s d h
    rw [getStatus_ip_eq, h]
    rfl
  · intro s d h
    rw [getStatus_linkSpeed_eq, h]
    rfl
  · intro s d h
    rw [getStatus_rssi_eq, h]
    rfl
  · intro s d h
    rw [getStatus_frequency_eq, h]
    rfl
  · intro l r h
    exact ⟨(parseScanLine_some_inv h).2.2.1, (parseScanLine_some_inv h).2.2.2⟩

/-- Witness for C9 (amended) on malformed scan and saved-network lines. -/
theorem c9_malformed_amended_witness :
    parseScanLine ("zz:gg 2412 -51".toList) = none ∧
    parseSavedLine ("no identifier here".toList) = none :=
  ⟨c9_malformed_amended.1 _ (by decide), c9_malformed_amended.2.1 _ (by decide)⟩

/-- Claim C10: the connect operation reports success exactly when the
connect command succeeded with no error marker in its stdout and the
follow-up status query is connected to the requested ssid; the result
always echoes the requested ssid, and every failure carries a nonempty
error string. -/
theorem c10_connect_verified (ssid : String) (res : AdbResult) (st : WifiStatus) :
    ((wifiConnect ssid res st).success = true ↔
      (res.success = true ∧
        strIncludesL (lowerL res.stdout.toList) ("error".toList) = false ∧
        st.connected = true ∧ st.ssid = some ssid)) ∧
    (wifiConnect ssid res st).ssid = ssid ∧
    ((wifiConnect ssid res st).success = false →
      ∃ e, (wifiConnect ssid res st).error = some e ∧ e ≠ "") := by
  unfold wifiConnect
  by_cases hc : res.success = false ∨
      strIncludesL (lowerL res.stdout.toList) ("error".toList) = true
  · rw [if_pos hc]
    refine ⟨?_, rfl, ?_⟩
    · constructor
      · intro h
        cases h
      · rintro ⟨h1, h2, _, _⟩
        cases hc with
        | inl h => rw [h1] at h; cases h
        | inr h => rw [h2] at h; cases h
    · intro _
      exact ⟨_, rfl, jsOr_ne_empty (jsOr_ne_empty (by decide))⟩
  · rw [if_neg hc]
    push_neg at hc
    obtain ⟨ha, hb⟩ := hc
    have ha2 : res.success = true := by
      cases h : res.success
      · exact absurd h ha
      · rfl
    have hb2 : strIncludesL (lowerL res.stdout.toList) ("error".toList) = false := by
      cases h : strIncludesL (lowerL res.stdout.toList) ("error".toList)
      · rfl
      · exact absurd h hb
    dsimp only
    refine ⟨?_, rfl, ?_⟩
    · simp only [Bool.and_eq_true, beq_iff_eq]
      constructor
      · rintro ⟨h1, h2⟩
        exact ⟨ha2, hb2, h1, h2⟩
      · rintro ⟨_, _, h3, h4⟩
        exact ⟨h3, h4⟩
    · intro hf
      by_cases hcon : (st.connected && (st.ssid == some ssid)) = true
      · rw [hcon] at hf
        cases hf
      · have hcf : (st.connected && (st.ssid == some ssid)) = false := by
          simpa using hcon
        rw [hcf]
        exact ⟨"Failed to verify connection", rfl, by decide⟩

/-- Witness for C10: a clean command but an unconnected follow-up status
yields a nonempty verification error. -/
theorem c10_connect_verified_witness :
    ∃ e, (wifiConnect "HomeNet" ⟨true, "ok", "", 0⟩
      ⟨true, false, none, none, none, none, none, none⟩).error = some e ∧ e ≠ "" :=
  (c10_connect_verified "HomeNet" ⟨true, "ok", "", 0⟩
    ⟨true, false, none, none, none, none, none, none⟩).2.2 (by decide)

/-- Witness for C4 (amended) at a concrete status dump. -/
theorem c4_ssid_amended_witness :
    (getStatus ⟨true, "", "", 0⟩ ⟨true, "mWifiInfo SSID: HomeNet, RSSI: -51", "", 0⟩).ssid =
        none ∨
    ∃ g, findStatusSsid ("mWifiInfo SSID: HomeNet, RSSI: -51" : String).toList = some g ∧
      g ≠ [] ∧ String.mk g ≠ "<none>" ∧
      (getStatus ⟨true, "", "", 0⟩ ⟨true, "mWifiInfo SSID: HomeNet, RSSI: -51", "", 0⟩).ssid =
        some (String.mk (trimL g)) :=
  c4_ssid_amended ⟨true, "", "", 0⟩ ⟨true, "mWifiInfo SSID: HomeNet, RSSI: -51", "", 0⟩
